import Mathlib

/-!
Verification of the animation-update logic of the vaporwave landing page.

The repository has two revisions of the same page:
- the earlier revision (`src/pages/index.js`): two terrain instances, movement
  rate 0.1, period 2, staggers 0 and -2; no scroll-driven camera;
- the later revision (`src/unnamed/part_000`): three terrain instances,
  movement rate 0, period 2, staggers 0, -2 and +2; a `Foo` component writing
  the camera position from the scroll offset.

Numbers are modelled as exact rationals (the idealised arithmetic the spec
states); the JavaScript remainder operator `%` (sign follows the dividend,
truncated division) is modelled by `jsMod`.
-/

namespace Vaporwave

/-- Truncation of a rational toward zero, as JavaScript division underlying
`%` truncates. -/
def ratTrunc (q : ℚ) : ℤ :=
  if 0 ≤ q then ⌊q⌋ else ⌈q⌉

/-- The JavaScript remainder operator `x % y`: `x - y * trunc (x / y)`,
so the result carries the sign of the dividend. -/
def jsMod (x y : ℚ) : ℚ :=
  x - y * (ratTrunc (x / y) : ℚ)

/-- A 3-component vector of rationals, as a three.js `Vector3`/`Euler`. -/
structure Vec3 where
  x : ℚ
  y : ℚ
  z : ℚ
deriving DecidableEq, Repr

/-- The mutable scene-graph state of one terrain mesh: its position and its
rotation (three.js mutates these objects in place). -/
structure TerrainState where
  position : Vec3
  rotation : Vec3
deriving DecidableEq, Repr

/-- The mutable uniforms of the RGB-shift shader pass (`RGBShiftShader` has
scalar uniforms `amount` and `angle` besides the input texture). -/
structure EffectsState where
  amount : ℚ
  angle  : ℚ
deriving DecidableEq, Repr

/-- Earlier revision (`src/pages/index.js`, `Landscape`, lines 120-124):
the per-frame callback writes
`terrain1.position.z = (elapsedTime * 0.1) % 2` and
`terrain2.position.z = ((elapsedTime * 0.1) % 2) - 2`. -/
def landscapeFrameV1 (elapsedTime : ℚ) (t1 t2 : TerrainState) :
    TerrainState × TerrainState :=
  ( { t1 with position :=
        { t1.position with z := jsMod (elapsedTime * (1/10)) 2 } },
    { t2 with position :=
        { t2.position with z := jsMod (elapsedTime * (1/10)) 2 - 2 } } )

/-- Later revision (`src/unnamed/part_000`, `Landscape`, lines 121-128):
the per-frame callback writes
`terrain1.position.z = (elapsedTime * 0) % 2`,
`terrain2.position.z = ((elapsedTime * 0) % 2) - 2`,
`terrain3.position.z = ((elapsedTime * 0) % 2) + 2`. -/
def landscapeFrameV2 (elapsedTime : ℚ) (t1 t2 t3 : TerrainState) :
    TerrainState × TerrainState × TerrainState :=
  ( { t1 with position :=
        { t1.position with z := jsMod (elapsedTime * 0) 2 } },
    { t2 with position :=
        { t2.position with z := jsMod (elapsedTime * 0) 2 - 2 } },
    { t3 with position :=
        { t3.position with z := jsMod (elapsedTime * 0) 2 + 2 } } )

/-- `Effects` per-frame callback (both revisions): if the RGB-shift ref is
populated, write `uniforms["amount"].value = 0.0012`; the `present` flag
models the null check `if (rgbShiftRef.current)`. -/
def effectsFrame (present : Bool) (e : EffectsState) : EffectsState :=
  if present then { e with amount := 3/2500 } else e

/-- `Foo` (`src/unnamed/part_000`, lines 222-234): camera depth written from
the scroll offset, `-2.4 + scroll * 0.003`. -/
def fooCameraZ (scroll : ℚ) : ℚ :=
  -(12/5) + scroll * (3/1000)

/-- `Foo` writes the whole camera position:
`camera.position.set(0, 0.1, -2.4 + scroll * 0.003)`. -/
def fooCameraPosition (scroll : ℚ) : Vec3 :=
  ⟨0, 1/10, fooCameraZ scroll⟩

/-- Modelled from the spec: the spec formula for a terrain instance's depth,
`depth = (elapsed_time * rate) mod period + stagger`, to be compared with the
source embedding. -/
def specDepth (rate period stagger elapsedTime : ℚ) : ℚ :=
  jsMod (elapsedTime * rate) period + stagger

/-- Modelled from the spec: the spec formula for the camera depth,
`base_depth + scroll * scroll_coefficient` with base depth -2.4 and
coefficient 0.003. -/
def specCameraDepth (scroll : ℚ) : ℚ :=
  -(12/5) + scroll * (3/1000)

/-- The retained scene-graph state mutated by the later revision's per-tick
update: the three terrain meshes, the RGB-shift uniforms, and the camera
position. -/
structure World where
  terrain1 : TerrainState
  terrain2 : TerrainState
  terrain3 : TerrainState
  rgbShift : EffectsState
  cameraPosition : Vec3
deriving DecidableEq, Repr

/-- One combined tick of the later revision's update, once mounted: the
`Landscape` frame, the `Effects` frame (ref present), and the `Foo` camera
write, reading only `(elapsedTime, scroll)`. -/
def tick (elapsedTime scroll : ℚ) (w : World) : World :=
  let l := landscapeFrameV2 elapsedTime w.terrain1 w.terrain2 w.terrain3
  { terrain1 := l.1
    terrain2 := l.2.1
    terrain3 := l.2.2
    rgbShift := effectsFrame true w.rgbShift
    cameraPosition := fooCameraPosition scroll }

/-- The page state around the canvas (`Scene`, `src/unnamed/part_000` lines
253-263 and `src/pages/index.js` lines 231-240): a `mounted` flag, initially
false, set to true once by the one-time effect; the canvas — and with it
every per-frame callback — is rendered only when `mounted` is true. -/
structure AppState where
  mounted : Bool
  world : World
deriving DecidableEq, Repr

/-- The events driving the page: the one-time mount/ready signal
(`setMounted(true)` in the mount effect) and a display-refresh frame
carrying the clock reading and the current scroll offset. -/
inductive Event where
  | mountSignal : Event
  | frame : ℚ → ℚ → Event
deriving DecidableEq, Repr

/-- The step relation of the page: the mount signal sets the flag; a frame
event runs the per-tick update only when mounted (an unmounted `Scene`
renders `null`, so no callback and no scene-graph write happens). -/
def step (e : Event) (s : AppState) : AppState :=
  match e with
  | Event.mountSignal => { s with mounted := true }
  | Event.frame elapsedTime scroll =>
      if s.mounted then { s with world := tick elapsedTime scroll s.world }
      else s

/-- The refs the per-tick callbacks dereference; each is `null` (`none`)
until the framework populates it. `composer` is dereferenced unguarded
(`composerRef.current.render()`); the RGB-shift ref is null-checked. -/
structure SceneRefs where
  terrain1 : Option TerrainState
  terrain2 : Option TerrainState
  terrain3 : Option TerrainState
  composer : Option Unit
  rgbShift : Option EffectsState
deriving DecidableEq, Repr

/-- The per-tick update with its failure paths explicit: dereferencing a
null terrain ref or a null composer ref is the error branch (`none`); the
RGB-shift write is guarded by its null check, so a missing RGB-shift ref
skips the write without failing. -/
def tickChecked (elapsedTime scroll : ℚ) (r : SceneRefs) (w : World) :
    Option World :=
  match r.terrain1, r.terrain2, r.terrain3, r.composer with
  | some _, some _, some _, some _ =>
      let l := landscapeFrameV2 elapsedTime w.terrain1 w.terrain2 w.terrain3
      some { terrain1 := l.1
             terrain2 := l.2.1
             terrain3 := l.2.2
             rgbShift := effectsFrame r.rgbShift.isSome w.rgbShift
             cameraPosition := fooCameraPosition scroll }
  | _, _, _, _ => none

/-- All refs populated: the state the framework guarantees once the canvas
is mounted and the scene graph built. -/
def allRefsPresent (r : SceneRefs) : Prop :=
  r.terrain1.isSome = true ∧ r.terrain2.isSome = true ∧
    r.terrain3.isSome = true ∧ r.composer.isSome = true ∧
    r.rgbShift.isSome = true

/-- A concrete terrain scene-graph node, for witnesses. -/
def t0 : TerrainState := ⟨⟨0, 0, 0⟩, ⟨0, 0, 0⟩⟩

/-- A concrete world, for witnesses. -/
def w0 : World := ⟨t0, t0, t0, ⟨1/200, 0⟩, ⟨0, 1/10, -(12/5)⟩⟩

/-- Concrete fully-populated refs, for witnesses. -/
def refs0 : SceneRefs := ⟨some t0, some t0, some t0, some (), some ⟨1/200, 0⟩⟩

/-- `jsMod x y` of a nonnegative dividend by a positive divisor lies in
`[0, y)`. -/
theorem jsMod_bounds (x y : ℚ) (hx : 0 ≤ x) (hy : 0 < y) :
    0 ≤ jsMod x y ∧ jsMod x y < y := by
  have hq : 0 ≤ x / y := div_nonneg hx hy.le
  have hkey : jsMod x y = y * Int.fract (x / y) := by
    unfold jsMod ratTrunc
    rw [if_pos hq, Int.fract, mul_sub]
    have hyy : y * (x / y) = x := by
      field_simp
    rw [hyy]
  refine ⟨?_, ?_⟩
  · rw [hkey]
    exact mul_nonneg hy.le (Int.fract_nonneg _)
  · rw [hkey]
    have h1 : Int.fract (x / y) < 1 := Int.fract_lt_one _
    nlinarith [Int.fract_nonneg (x / y)]

end Vaporwave

namespace Vaporwave

/-- Claim C1: each terrain instance's depth written by the per-frame update
equals `(elapsed_time * rate) mod period + stagger`, with period 2 and, in
the earlier revision, rate 0.1 and staggers 0 and -2; in the later revision,
rate 0 and staggers 0, -2 and +2. -/
theorem terrain_depth_matches_spec (elapsedTime : ℚ)
    (t1 t2 t3 : TerrainState) :
    ((landscapeFrameV1 elapsedTime t1 t2).1.position.z =
        specDepth (1/10) 2 0 elapsedTime ∧
      (landscapeFrameV1 elapsedTime t1 t2).2.position.z =
        specDepth (1/10) 2 (-2) elapsedTime) ∧
    ((landscapeFrameV2 elapsedTime t1 t2 t3).1.position.z =
        specDepth 0 2 0 elapsedTime ∧
      (landscapeFrameV2 elapsedTime t1 t2 t3).2.1.position.z =
        specDepth 0 2 (-2) elapsedTime ∧
      (landscapeFrameV2 elapsedTime t1 t2 t3).2.2.position.z =
        specDepth 0 2 2 elapsedTime) := by
  refine ⟨⟨?_, ?_⟩, ?_, ?_, ?_⟩ <;>
    simp [landscapeFrameV1, landscapeFrameV2, specDepth] <;> ring

/-- Claim C2: for elapsed_time ≥ 0, under both configurations (rate 0.1 and
rate 0, period 2) each instance's written depth lies in
`[stagger, stagger + 2)`: `[0,2)` and `[-2,0)` for the earlier revision;
`[0,2)`, `[-2,0)` and `[2,4)` for the later one. -/
theorem terrain_depth_in_band (elapsedTime : ℚ) (h : 0 ≤ elapsedTime)
    (t1 t2 t3 : TerrainState) :
    ((0 ≤ (landscapeFrameV1 elapsedTime t1 t2).1.position.z ∧
        (landscapeFrameV1 elapsedTime t1 t2).1.position.z < 0 + 2) ∧
      (-2 ≤ (landscapeFrameV1 elapsedTime t1 t2).2.position.z ∧
        (landscapeFrameV1 elapsedTime t1 t2).2.position.z < -2 + 2)) ∧
    ((0 ≤ (landscapeFrameV2 elapsedTime t1 t2 t3).1.position.z ∧
        (landscapeFrameV2 elapsedTime t1 t2 t3).1.position.z < 0 + 2) ∧
      (-2 ≤ (landscapeFrameV2 elapsedTime t1 t2 t3).2.1.position.z ∧
        (landscapeFrameV2 elapsedTime t1 t2 t3).2.1.position.z < -2 + 2) ∧
      (2 ≤ (landscapeFrameV2 elapsedTime t1 t2 t3).2.2.position.z ∧
        (landscapeFrameV2 elapsedTime t1 t2 t3).2.2.position.z < 2 + 2)) := by
  have hx : 0 ≤ elapsedTime * (1/10) := mul_nonneg h (by norm_num)
  have hb1 := jsMod_bounds (elapsedTime * (1/10)) 2 hx (by norm_num)
  have hz : jsMod (elapsedTime * 0) 2 = 0 := by
    norm_num [jsMod, ratTrunc]
  refine ⟨⟨⟨?_, ?_⟩, ?_, ?_⟩, ⟨?_, ?_⟩, ⟨?_, ?_⟩, ?_, ?_⟩ <;>
    simp only [landscapeFrameV1, landscapeFrameV2, hz] <;>
    linarith [hb1.1, hb1.2]

/-- Witness for C2 at `elapsed_time = 3` in the concrete scene. -/
theorem terrain_depth_in_band_witness :
    0 ≤ (3 : ℚ) ∧
    (((0 ≤ (landscapeFrameV1 3 t0 t0).1.position.z ∧
        (landscapeFrameV1 3 t0 t0).1.position.z < 0 + 2) ∧
      (-2 ≤ (landscapeFrameV1 3 t0 t0).2.position.z ∧
        (landscapeFrameV1 3 t0 t0).2.position.z < -2 + 2)) ∧
    ((0 ≤ (landscapeFrameV2 3 t0 t0 t0).1.position.z ∧
        (landscapeFrameV2 3 t0 t0 t0).1.position.z < 0 + 2) ∧
      (-2 ≤ (landscapeFrameV2 3 t0 t0 t0).2.1.position.z ∧
        (landscapeFrameV2 3 t0 t0 t0).2.1.position.z < -2 + 2) ∧
      (2 ≤ (landscapeFrameV2 3 t0 t0 t0).2.2.position.z ∧
        (landscapeFrameV2 3 t0 t0 t0).2.2.position.z < 2 + 2))) :=
  ⟨by norm_num, terrain_depth_in_band 3 (by norm_num) t0 t0 t0⟩

/-- Counterexample to claim C3 as stated: at `elapsed_time = 0` in the
earlier revision, instances 1 and 2 (staggers 0 and -2) have depths 0 and
-2, so they differ by 2, while `(s_1 - s_2) mod period = 2 mod 2 = 0`. -/
theorem stagger_difference_counterexample :
    ¬ (|(landscapeFrameV1 0 t0 t0).1.position.z -
          (landscapeFrameV1 0 t0 t0).2.position.z| =
        jsMod ((0 : ℚ) - (-2)) 2) := by
  norm_num [landscapeFrameV1, t0, jsMod, ratTrunc]

/-- Claim C3 (amended): at every tick, the depths of two distinct instances
differ by exactly `s_i - s_j` (not its reduction mod the period); their
difference is hence congruent to `s_i - s_j` modulo the period, i.e. the two
values agree after `jsMod _ 2`. -/
theorem stagger_difference_amended (elapsedTime : ℚ)
    (t1 t2 t3 : TerrainState) :
    (((landscapeFrameV1 elapsedTime t1 t2).1.position.z -
          (landscapeFrameV1 elapsedTime t1 t2).2.position.z = 0 - (-2) ∧
        jsMod ((landscapeFrameV1 elapsedTime t1 t2).1.position.z -
            (landscapeFrameV1 elapsedTime t1 t2).2.position.z) 2 =
          jsMod ((0 : ℚ) - (-2)) 2)) ∧
    (((landscapeFrameV2 elapsedTime t1 t2 t3).1.position.z -
          (landscapeFrameV2 elapsedTime t1 t2 t3).2.1.position.z = 0 - (-2) ∧
        jsMod ((landscapeFrameV2 elapsedTime t1 t2 t3).1.position.z -
            (landscapeFrameV2 elapsedTime t1 t2 t3).2.1.position.z) 2 =
          jsMod ((0 : ℚ) - (-2)) 2) ∧
      ((landscapeFrameV2 elapsedTime t1 t2 t3).1.position.z -
          (landscapeFrameV2 elapsedTime t1 t2 t3).2.2.position.z = 0 - 2 ∧
        jsMod ((landscapeFrameV2 elapsedTime t1 t2 t3).1.position.z -
            (landscapeFrameV2 elapsedTime t1 t2 t3).2.2.position.z) 2 =
          jsMod ((0 : ℚ) - 2) 2) ∧
      ((landscapeFrameV2 elapsedTime t1 t2 t3).2.1.position.z -
          (landscapeFrameV2 elapsedTime t1 t2 t3).2.2.position.z =
            (-2) - 2 ∧
        jsMod ((landscapeFrameV2 elapsedTime t1 t2 t3).2.1.position.z -
            (landscapeFrameV2 elapsedTime t1 t2 t3).2.2.position.z) 2 =
          jsMod ((-2 : ℚ) - 2) 2)) := by
  have d1 : (landscapeFrameV1 elapsedTime t1 t2).1.position.z -
      (landscapeFrameV1 elapsedTime t1 t2).2.position.z = 2 := by
    simp [landscapeFrameV1]
  have d2 : (landscapeFrameV2 elapsedTime t1 t2 t3).1.position.z -
      (landscapeFrameV2 elapsedTime t1 t2 t3).2.1.position.z = 2 := by
    simp [landscapeFrameV2]
  have d3 : (landscapeFrameV2 elapsedTime t1 t2 t3).1.position.z -
      (landscapeFrameV2 elapsedTime t1 t2 t3).2.2.position.z = -2 := by
    simp [landscapeFrameV2]
  have d4 : (landscapeFrameV2 elapsedTime t1 t2 t3).2.1.position.z -
      (landscapeFrameV2 elapsedTime t1 t2 t3).2.2.position.z = -4 := by
    simp [landscapeFrameV2]
    ring
  exact ⟨⟨by rw [d1]; norm_num, by rw [d1]; norm_num⟩,
    ⟨by rw [d2]; norm_num, by rw [d2]; norm_num⟩,
    ⟨by rw [d3]; norm_num, by rw [d3]; norm_num⟩,
    ⟨by rw [d4]; norm_num, by rw [d4]; norm_num⟩⟩

/-- Claim C4: the camera depth written from the scroll offset equals
`base_depth + scroll * scroll_coefficient` with base depth -2.4 and
coefficient 0.003, and is affine in scroll:
`camera_depth a - camera_depth b = 0.003 * (a - b)`. -/
theorem camera_depth_affine (scroll a b : ℚ) :
    (fooCameraPosition scroll).z = specCameraDepth scroll ∧
    fooCameraZ a - fooCameraZ b = (3/1000) * (a - b) := by
  refine ⟨rfl, ?_⟩
  simp only [fooCameraZ]
  ring

/-- Claim C5: with rate 0 (the later revision), every instance's depth is
the same constant (0, -2, 2 respectively) for every elapsed_time. -/
theorem frozen_depth_constant (elapsedTime : ℚ) (t1 t2 t3 : TerrainState) :
    (landscapeFrameV2 elapsedTime t1 t2 t3).1.position.z = 0 ∧
    (landscapeFrameV2 elapsedTime t1 t2 t3).2.1.position.z = -2 ∧
    (landscapeFrameV2 elapsedTime t1 t2 t3).2.2.position.z = 2 := by
  refine ⟨?_, ?_, ?_⟩ <;> norm_num [landscapeFrameV2, jsMod, ratTrunc]

/-- Claim C6: the per-tick update is a pure overwrite of its outputs from
`(elapsed_time, scroll)`: running it twice with the same pair yields the
identical world, so there is no hidden accumulating state. -/
theorem tick_idempotent (elapsedTime scroll : ℚ) (w : World) :
    tick elapsedTime scroll (tick elapsedTime scroll w) =
      tick elapsedTime scroll w := rfl

/-- Claim C7: the RGB-shift `amount` uniform is set to the literal 0.0012
on every tick in which the ref is populated, so after any such tick its
value is that constant and repeating the tick changes nothing. -/
theorem rgb_shift_amount_constant (e : EffectsState) :
    (effectsFrame true e).amount = 3/2500 ∧
    effectsFrame true (effectsFrame true e) = effectsFrame true e :=
  ⟨rfl, rfl⟩

/-- Claim C8: before the mount signal a frame event leaves the whole state
untouched (no tick, no scene-graph mutation); once mounted, a frame event
applies the per-tick update, and no event ever unsets the mounted flag. -/
theorem mount_gate (s : AppState) (elapsedTime scroll : ℚ) :
    (s.mounted = false → step (Event.frame elapsedTime scroll) s = s) ∧
    (s.mounted = true →
      step (Event.frame elapsedTime scroll) s =
        { s with world := tick elapsedTime scroll s.world }) ∧
    (∀ e : Event, s.mounted = true → (step e s).mounted = true) := by
  refine ⟨?_, ?_, ?_⟩
  · intro h
    simp [step, h]
  · intro h
    simp [step, h]
  · intro e h
    cases e with
    | mountSignal => simp [step]
    | frame t sc => simp [step, h]

/-- Witness for C8 in the concrete scene: an unmounted frame is a no-op, a
mounted frame runs the tick, and the flag survives the mount signal. -/
theorem mount_gate_witness :
    step (Event.frame 5 7) ⟨false, w0⟩ = (⟨false, w0⟩ : AppState) ∧
    step (Event.frame 5 7) ⟨true, w0⟩ =
      ({ mounted := true, world := tick 5 7 w0 } : AppState) ∧
    (step Event.mountSignal ⟨true, w0⟩).mounted = true :=
  ⟨(mount_gate ⟨false, w0⟩ 5 7).1 rfl,
    (mount_gate ⟨true, w0⟩ 5 7).2.1 rfl,
    (mount_gate ⟨true, w0⟩ 5 7).2.2 Event.mountSignal rfl⟩

/-- Claim C9: once mounted every ref the tick dereferences is populated, so
the checked per-tick update never reaches its error branch: it returns
exactly the total update's result. -/
theorem mounted_tick_total (elapsedTime scroll : ℚ) (r : SceneRefs)
    (w : World) (h : allRefsPresent r) :
    tickChecked elapsedTime scroll r w = some (tick elapsedTime scroll w) := by
  obtain ⟨h1, h2, h3, h4, h5⟩ := h
  rcases r with ⟨o1, o2, o3, o4, o5⟩
  cases o1 <;> cases o2 <;> cases o3 <;> cases o4 <;> cases o5 <;>
    simp_all [tickChecked, tick]

/-- Witness for C9: the concrete fully-populated refs satisfy the mounted
precondition and the checked tick succeeds on them. -/
theorem mounted_tick_total_witness :
    allRefsPresent refs0 ∧
    tickChecked 5 7 refs0 w0 = some (tick 5 7 w0) :=
  ⟨by simp [allRefsPresent, refs0],
    mounted_tick_total 5 7 refs0 w0 (by simp [allRefsPresent, refs0])⟩

/-- Claim C10: a terrain frame writes only each instance's `position.z`:
`position.x`, `position.y` and the construction-time rotation are preserved
(both revisions); the effects frame writes only the `amount` uniform,
preserving `angle`. -/
theorem tick_touches_only_depth_and_amount (elapsedTime : ℚ)
    (t1 t2 t3 : TerrainState) (e : EffectsState) :
    ((landscapeFrameV1 elapsedTime t1 t2).1.position.x = t1.position.x ∧
      (landscapeFrameV1 elapsedTime t1 t2).1.position.y = t1.position.y ∧
      (landscapeFrameV1 elapsedTime t1 t2).1.rotation = t1.rotation ∧
      (landscapeFrameV1 elapsedTime t1 t2).2.position.x = t2.position.x ∧
      (landscapeFrameV1 elapsedTime t1 t2).2.position.y = t2.position.y ∧
      (landscapeFrameV1 elapsedTime t1 t2).2.rotation = t2.rotation) ∧
    ((landscapeFrameV2 elapsedTime t1 t2 t3).1.position.x = t1.position.x ∧
      (landscapeFrameV2 elapsedTime t1 t2 t3).1.position.y = t1.position.y ∧
      (landscapeFrameV2 elapsedTime t1 t2 t3).1.rotation = t1.rotation ∧
      (landscapeFrameV2 elapsedTime t1 t2 t3).2.1.position.x =
        t2.position.x ∧
      (landscapeFrameV2 elapsedTime t1 t2 t3).2.1.position.y =
        t2.position.y ∧
      (landscapeFrameV2 elapsedTime t1 t2 t3).2.1.rotation = t2.rotation ∧
      (landscapeFrameV2 elapsedTime t1 t2 t3).2.2.position.x =
        t3.position.x ∧
      (landscapeFrameV2 elapsedTime t1 t2 t3).2.2.position.y =
        t3.position.y ∧
      (landscapeFrameV2 elapsedTime t1 t2 t3).2.2.rotation = t3.rotation) ∧
    ((effectsFrame true e).amount = 3/2500 ∧
      (effectsFrame true e).angle = e.angle) :=
  ⟨⟨rfl, rfl, rfl, rfl, rfl, rfl⟩,
    ⟨rfl, rfl, rfl, rfl, rfl, rfl, rfl, rfl, rfl⟩,
    ⟨rfl, rfl⟩⟩

end Vaporwave
